import Mathlib

/-
Verification of the ghost-webhooks notification relay.

The development shallowly embeds the three source files:
  - src/mysql/mysqlClientProvider.ts   (connection retry, the two resolvers)
  - src/index.ts                       (the webhook handler / orchestrator)
  - the Postmark batch email sender    (batching, template model, batch send)
JavaScript values that may be undefined are modelled as Option String;
JavaScript objects coming back from the mysql driver are modelled as
association lists from column-key to value; thrown exceptions are modelled
with Except; the single-threaded event loop is modelled by separating the
work a function performs synchronously from the callbacks it queues.
-/

namespace GhostWebhooks

/-! ## Connection manager: src/mysql/mysqlClientProvider.ts -/

/-- Source line 6: const MAX_CXN_RETRIES = 6. -/
def MAX_CXN_RETRIES : Nat := 6

/-- Source line 7: let CONNECTION_ATTEMPTS = 1 — a module-global mutable
counter, initialised once when the module loads and never reset. -/
def CONNECTION_ATTEMPTS_init : Nat := 1

/-- Source lines 63-69, getRetryDelay(attempts): delay in milliseconds,
maxDelayMillis when minDelayMillis * 2 ^ attempts exceeds it, otherwise
minDelayMillis * 2 ^ attempts. -/
def getRetryDelay (attempts : Nat) : Nat :=
  let minDelayMillis := 1000
  let maxDelayMillis := 60000
  if maxDelayMillis < minDelayMillis * 2 ^ attempts then maxDelayMillis
  else minDelayMillis * 2 ^ attempts

/-- The observable outcome of one call to attemptToConnectMySql:
whether it returned true or threw, the value of the global counter
CONNECTION_ATTEMPTS after the call, how many getConnection calls the
invocation itself made, and the sleeps it performed, in order (ms). -/
structure ConnectResult where
  ok : Bool
  finalAttempts : Nat
  numAttempts : Nat
  sleeps : List Nat
deriving DecidableEq

/-- The while loop of attemptToConnectMySql (source lines 25-37).
`outcome i` tells whether the (i+1)-th getConnection call of this
invocation succeeds.  `gas` is fuel: the caller passes
MAX_CXN_RETRIES + 1 - ctr, which bounds the remaining iterations of
`while (CONNECTION_ATTEMPTS <= MAX_CXN_RETRIES)`; the loop condition is
also checked explicitly.  On failure the loop sleeps
getRetryDelay(CONNECTION_ATTEMPTS) and then increments the counter
(source lines 34-35); on success it returns true without touching the
counter (source line 29). -/
def attemptGo (outcome : Nat → Bool) : Nat → Nat → Nat → List Nat → ConnectResult
  | 0, ctr, made, sleeps =>
      { ok := false, finalAttempts := ctr, numAttempts := made, sleeps := sleeps }
  | gas + 1, ctr, made, sleeps =>
      if ctr ≤ MAX_CXN_RETRIES then
        if outcome made then
          { ok := true, finalAttempts := ctr, numAttempts := made + 1, sleeps := sleeps }
        else
          attemptGo outcome gas (ctr + 1) (made + 1) (sleeps ++ [getRetryDelay ctr])
      else
        { ok := false, finalAttempts := ctr, numAttempts := made, sleeps := sleeps }

/-- Source lines 24-42, attemptToConnectMySql(), started while the global
counter CONNECTION_ATTEMPTS holds `ctr`.  `ok = false` models the throw of
"Failed to connect to the database after multiple attempts." once the
counter exceeds MAX_CXN_RETRIES. -/
def attemptToConnectMySql (outcome : Nat → Bool) (ctr : Nat) : ConnectResult :=
  attemptGo outcome (MAX_CXN_RETRIES + 1 - ctr) ctr 0 []

/-- A database that refuses the first three connection attempts of the
invocation and accepts the fourth. -/
def failFirst3 : Nat → Bool := fun made => decide (3 ≤ made)

/-- A database that refuses every connection attempt. -/
def alwaysFail : Nat → Bool := fun _ => false

/-! ## Rows and the two resolvers: src/mysql/mysqlClientProvider.ts -/

/-- A row returned by the mysql driver, as the JavaScript object the code
indexes by property name: an association list from column key to value. -/
abbrev Row := List (String × String)

/-- JavaScript property access row.key: the value when the key is present,
undefined (none) otherwise. -/
def jsGet (row : Row) (key : String) : Option String :=
  (row.find? (fun p => p.1 = key)).map Prod.snd

/-- A result row of EMAILS_QUERY (source line 3):
SELECT members.email as email, members.uuid as member_uuid,
members.name as name ... -/
def emailsQueryRow (email uuid name : String) : Row :=
  [("email", email), ("member_uuid", uuid), ("name", name)]

/-- A result row of NEWSLETTER_QUERY (source line 4):
SELECT name, newsletters.uuid as newsletter_id ... — the uuid column comes
back under the key newsletter_id, not newsletter_uuid. -/
def newsletterQueryRow (name uuid : String) : Row :=
  [("name", name), ("newsletter_id", uuid)]

/-- Errors a resolver can propagate.  typeError models the TypeError a
JavaScript property access on undefined throws; queryError models a failure
of the driver itself; notFound is the defined NotFoundError of the
error taxonomy of the specification (section 7), which the code never produces. -/
inductive JsError where
  | typeError : String → JsError
  | queryError : String → JsError
  | notFound : JsError
deriving DecidableEq

/-- The interface UserData of the source (lines 9-13): email, name, uuid.
The declared type of each field is string; the runtime values are whatever
the driver returned, so each field is modelled as a possibly-undefined
JavaScript value. -/
structure UserData where
  email : Option String
  name : Option String
  uuid : Option String
deriving DecidableEq

/-- The object getNewsletterNameByPostId returns (source lines 117-121):
declared { name: string, newsletter_uuid: string }. -/
structure NewsletterInfo where
  name : Option String
  newsletter_uuid : Option String
deriving DecidableEq

/-- Connection lifecycle events a resolver performs, in order:
acquire models this.getConnection(), release models connection.end(). -/
inductive CxnEvent where
  | acquire : CxnEvent
  | release : CxnEvent
deriving DecidableEq

/-- One invocation of a resolver: the connection events it performed and
the value it returned or the error it threw. -/
structure ResolverRun (β : Type) where
  events : List CxnEvent
  result : Except JsError β

/-- Source lines 84-89: each row is mapped to a UserData by reading the
properties email, name and member_uuid of the row object. -/
def rowToUser (r : Row) : UserData :=
  { email := jsGet r "email", name := jsGet r "name", uuid := jsGet r "member_uuid" }

/-- Source lines 77-99, getEmailsByPostId: opens a connection, runs
EMAILS_QUERY (its outcome is the parameter rowsOrError), maps the rows to
UserData and calls connection.end() — but only on the success path; when
the query throws, the catch block logs and rethrows without ending the
connection, so no release event happens on that path. -/
def getEmailsByPostIdRun (rowsOrError : Except JsError (List Row)) :
    ResolverRun (List UserData) :=
  match rowsOrError with
  | Except.error e => { events := [CxnEvent.acquire], result := Except.error e }
  | Except.ok rows =>
      { events := [CxnEvent.acquire, CxnEvent.release]
        result := Except.ok (rows.map rowToUser) }

/-- Source lines 107-126, getNewsletterNameByPostId: opens a connection,
runs NEWSLETTER_QUERY (outcome in rowsOrError) and reads rows[0].name and
rows[0].newsletter_uuid.  When the query returns zero rows, rows[0] is
undefined and the property access throws a TypeError, which the catch
block rethrows.  No path of this function calls connection.end(), so no
run of it emits a release event. -/
def getNewsletterNameByPostIdRun (rowsOrError : Except JsError (List Row)) :
    ResolverRun NewsletterInfo :=
  match rowsOrError with
  | Except.error e => { events := [CxnEvent.acquire], result := Except.error e }
  | Except.ok [] =>
      { events := [CxnEvent.acquire]
        result := Except.error
          (JsError.typeError "Cannot read properties of undefined") }
  | Except.ok (r :: _) =>
      { events := [CxnEvent.acquire]
        result := Except.ok
          { name := jsGet r "name", newsletter_uuid := jsGet r "newsletter_uuid" } }

/-- A run closes every connection it opened: as many release events as
acquire events. -/
def closesEveryConnection (events : List CxnEvent) : Prop :=
  events.count CxnEvent.release = events.count CxnEvent.acquire

/-! ## Batch email sender (PostmarkBatchEmailSender) -/

/-- Source line 8: const BATCH_SIZE = 500. -/
def BATCH_SIZE : Nat := 500

/-- Source line 71: const batches = Math.ceil(userData.length / BATCH_SIZE),
the ceiling of the division, on naturals. -/
def batchesCount (n : Nat) : Nat := (n + (BATCH_SIZE - 1)) / BATCH_SIZE

/-- JavaScript Array.prototype.slice(start, stop) for 0 ≤ start ≤ stop:
the elements from index start (inclusive) to stop (exclusive), clipped to
the array length. -/
def jsSlice (l : List α) (start stop : Nat) : List α :=
  (l.drop start).take (stop - start)

/-- Source lines 71-74: the batches the send loop forms, in submission
order; iteration i takes userData.slice(i * BATCH_SIZE, (i+1) * BATCH_SIZE). -/
def sendBatches (userData : List α) : List (List α) :=
  (List.range (batchesCount userData.length)).map
    (fun i => jsSlice userData (i * BATCH_SIZE) ((i + 1) * BATCH_SIZE))

/-- The per-message result Postmark returns for a batch entry
(type BatchResponse, source lines 10-16; the fields the code reads). -/
structure BatchResponse where
  ErrorCode : Int
  Message : String
  To : String
deriving DecidableEq

/-- The NewsletterData interface of src/index.ts (lines 29-41).  The name
field receives the whole object getNewsletterNameByPostId resolved to
(src/index.ts line 81 assigns newsletterName, which is that object, not a
string).  The remaining fields are copied from the webhook body and may be
undefined. -/
structure AuthorData where
  name : Option String
  image : Option String

structure NewsletterData where
  name : NewsletterInfo
  title : Option String
  excerpt : Option String
  html : Option String
  url : Option String
  feature_image : Option String
  author : AuthorData
  postSlug : Option String

/-- The PostmarkTemplateModel built per recipient (source lines 76-93).
newsletterName receives newsletter.name, which at runtime is the object
NewsletterInfo, so it is typed as such here; every other field is a
possibly-undefined JavaScript string value. -/
structure PostmarkTemplateModel where
  authorName : Option String
  emailFrom : Option String
  created_at : Option String
  website_url : Option String
  header_image : Option String
  newsletter_uuid : Option String
  user_uuid : Option String
  title : Option String
  html : Option String
  excerpt : Option String
  feature_image : Option String
  newsletterName : NewsletterInfo
  authorImage : Option String
  username : Option String
  user_email : Option String
  postUrl : Option String

/-- JavaScript a || b on string values: b when a is undefined or the empty
string (falsy), a otherwise. -/
def jsOrElse (a : Option String) (b : String) : String :=
  match a with
  | none => b
  | some s => if s = "" then b else s

/-- Source lines 76-93: the template model for one recipient.  Arguments
mailFrom and ghostUrl are process.env.MAIL_FROM and process.env.GHOST_URL.
The accesses newsletter.header_image, newsletter.created_at and
newsletter.uuid read properties that do not exist on the NewsletterData
object built in src/index.ts (lines 80-92), so those three fields are
undefined on every run; they are modelled as none. -/
def buildTemplateModel (mailFrom ghostUrl : Option String)
    (user : UserData) (newsletter : NewsletterData) : PostmarkTemplateModel :=
  { username := user.name
    emailFrom := some (jsOrElse mailFrom "")
    website_url := some (jsOrElse ghostUrl "https://example.com")
    header_image := none
    user_email := user.email
    user_uuid := user.uuid
    created_at := none
    newsletter_uuid := none
    newsletterName := newsletter.name
    title := newsletter.title
    excerpt := newsletter.excerpt
    html := newsletter.html
    feature_image := newsletter.feature_image
    authorName := newsletter.author.name
    authorImage := newsletter.author.image
    postUrl := newsletter.url }

/-- One entry of the batch request (source lines 95-100). -/
structure PostmarkMessage where
  From : Option String
  To : Option String
  TemplateId : Option String
  TemplateModel : PostmarkTemplateModel

/-- Source lines 75-101: one recipient mapped to a batch entry. -/
def buildMessage (mailFrom ghostUrl templateId : Option String)
    (newsletter : NewsletterData) (user : UserData) : PostmarkMessage :=
  { From := mailFrom
    To := user.email
    TemplateId := templateId
    TemplateModel := buildTemplateModel mailFrom ghostUrl user newsletter }

/-- Source lines 106-110, the body of the then-callback: for each result
of the batch response, when result.Message is not "OK" or result.ErrorCode
is not 0, result.To is pushed onto failedEmails, in response order. -/
def batchFailures (response : List BatchResponse) : List String :=
  response.filterMap
    (fun result =>
      if result.Message ≠ "OK" ∨ result.ErrorCode ≠ 0 then some result.To else none)

/-- What one call to send leaves behind.  returned is the content of the
failedEmails array at the moment send returns it to the caller; each
element of deferredPushes is the list of addresses one queued then-callback
will push onto that same array once the event loop runs it, in batch
submission order. -/
structure SendOutcome where
  returned : List String
  deferredPushes : List (List String)
deriving DecidableEq

/-- Source lines 62-115, PostmarkBatchEmailSender.send.  The method is
synchronous: the for loop builds each batch, calls
pmClient.sendEmailBatchWithTemplates(emailBatch) and attaches a
then-callback to the returned promise.  The callback is only queued — under
the JavaScript event loop it cannot run before the current synchronous
call completes — so the loop never modifies failedEmails, and line 114
returns the array still holding what it held at line 66: nothing.
provider gives each submitted batch its eventual response. -/
def send (provider : List PostmarkMessage → List BatchResponse)
    (mailFrom ghostUrl templateId : Option String)
    (userData : List UserData) (newsletter : NewsletterData) : SendOutcome :=
  let step := fun (st : List String × List (List String)) (batch : List UserData) =>
    let emailBatch := batch.map (buildMessage mailFrom ghostUrl templateId newsletter)
    (st.1, st.2 ++ [batchFailures (provider emailBatch)])
  let final := (sendBatches userData).foldl step ([], [])
  { returned := final.1, deferredPushes := final.2 }

/-- The content of failedEmails after the event loop has run every queued
then-callback: what the doc comment of send promises the method returns. -/
def eventualFailures (o : SendOutcome) : List String :=
  o.returned ++ o.deferredPushes.flatten

/-! ## Webhook handler: src/index.ts -/

/-- What one run of the POST /hooks handler did: the HTTP status it
responded with and whether it invoked the batch email sender. -/
structure HandlerTrace where
  status : Nat
  dispatched : Bool
deriving DecidableEq

/-- Source lines 69-110, the POST /hooks handler body.  emailsResult and
newsletterResult are the outcomes of the two resolver calls (lines 76-78);
sendFn is batchEmailSender.send applied to everything but the
recipient list (line 94-95 passes usersToEmail).  A resolver throw is
caught at line 105 and answered with 500 before any dispatch; after
dispatch, a non-empty failure list throws at line 101 (caught, 500) and an
empty one answers 200 (line 104). -/
def hooksHandler (emailsResult : Except JsError (List UserData))
    (newsletterResult : Except JsError NewsletterInfo)
    (sendFn : List UserData → List String) : HandlerTrace :=
  match emailsResult with
  | Except.error _ => { status := 500, dispatched := false }
  | Except.ok usersToEmail =>
      match newsletterResult with
      | Except.error _ => { status := 500, dispatched := false }
      | Except.ok _ =>
          let failureEmails := sendFn usersToEmail
          if failureEmails.length > 0 then { status := 500, dispatched := true }
          else { status := 200, dispatched := true }

/-- The nested post object of the inbound webhook body
(interface PostData, src/index.ts lines 10-27).  Each field may be absent
from the delivered JSON, hence possibly undefined. -/
structure PrimaryAuthor where
  name : Option String
  profile_image : Option String
  url : Option String

structure PostCurrent where
  id : Option String
  slug : Option String
  url : Option String
  title : Option String
  excerpt : Option String
  html : Option String
  feature_image : Option String
  primary_author : PrimaryAuthor

/-- Source lines 80-92 of src/index.ts: the newsletterData object the
handler assembles.  No field is defaulted: every field is a plain copy of
the corresponding webhook field, and name receives the whole object the
newsletter resolver returned. -/
def buildNewsletterData (post : PostCurrent) (newsletterName : NewsletterInfo) :
    NewsletterData :=
  { name := newsletterName
    title := post.title
    excerpt := post.excerpt
    html := post.html
    url := post.url
    feature_image := post.feature_image
    author := { name := post.primary_author.name
                image := post.primary_author.profile_image }
    postSlug := post.slug }

/-- The property claim C7 asserts of the template model: every
string-typed field is present (a string, not undefined). -/
def allTemplateStringsPresent (m : PostmarkTemplateModel) : Prop :=
  m.authorName.isSome ∧ m.emailFrom.isSome ∧ m.created_at.isSome ∧
  m.website_url.isSome ∧ m.header_image.isSome ∧ m.newsletter_uuid.isSome ∧
  m.user_uuid.isSome ∧ m.title.isSome ∧ m.html.isSome ∧ m.excerpt.isSome ∧
  m.feature_image.isSome ∧ m.authorImage.isSome ∧ m.username.isSome ∧
  m.user_email.isSome ∧ m.postUrl.isSome

/-! ## Concrete sample inputs, used to evaluate the code at failing inputs -/

/-- A fully populated webhook post: every field delivered. -/
def samplePost : PostCurrent :=
  { id := some "42"
    slug := some "hello-world"
    url := some "https://blog.example.com/hello-world"
    title := some "Hello"
    excerpt := some "An excerpt"
    html := some "<p>Hi</p>"
    feature_image := some "https://blog.example.com/img.png"
    primary_author :=
      { name := some "Ann Author"
        profile_image := some "https://blog.example.com/ann.png"
        url := some "https://blog.example.com/ann" } }

/-- A newsletter lookup result with both properties present. -/
def sampleInfo : NewsletterInfo :=
  { name := some "Weekly", newsletter_uuid := some "uuid-1" }

/-- The newsletterData the handler assembles from the samples. -/
def sampleNewsletterData : NewsletterData :=
  buildNewsletterData samplePost sampleInfo

/-- A recipient whose send will be reported as failed. -/
def badUser : UserData :=
  { email := some "bad@example.com", name := some "Bad", uuid := some "u-bad" }

/-- A provider that reports every message of every batch as failed with
error code 1. -/
def failingProvider : List PostmarkMessage → List BatchResponse :=
  fun emailBatch =>
    emailBatch.map
      (fun m =>
        { ErrorCode := 1, Message := "Failed", To := m.To.getD "" })

instance (events : List CxnEvent) : Decidable (closesEveryConnection events) := by
  unfold closesEveryConnection; infer_instance

instance (m : PostmarkTemplateModel) : Decidable (allTemplateStringsPresent m) := by
  unfold allTemplateStringsPresent; infer_instance

/-! ## Helper lemmas -/

theorem batchesCount_zero : batchesCount 0 = 0 := by decide

theorem batchesCount_step (n : Nat) (h : n ≠ 0) :
    batchesCount n = batchesCount (n - BATCH_SIZE) + 1 := by
  unfold batchesCount BATCH_SIZE
  omega

theorem sendBatches_nil : sendBatches ([] : List α) = [] := by
  have h : batchesCount 0 = 0 := by decide
  simp [sendBatches, h]

theorem jsSlice_shift (l : List α) (i : Nat) :
    jsSlice l ((i + 1) * BATCH_SIZE) ((i + 1 + 1) * BATCH_SIZE)
      = jsSlice (l.drop BATCH_SIZE) (i * BATCH_SIZE) ((i + 1) * BATCH_SIZE) := by
  unfold jsSlice BATCH_SIZE
  rw [List.drop_drop]
  have h2 : (i + 1 + 1) * 500 - (i + 1) * 500 = (i + 1) * 500 - i * 500 := by omega
  have h1 : (i + 1) * 500 = i * 500 + 500 := by ring
  rw [h2, h1, Nat.add_comm (i * 500) 500]

theorem sendBatches_cons (l : List α) (h : l ≠ []) :
    sendBatches l = l.take BATCH_SIZE :: sendBatches (l.drop BATCH_SIZE) := by
  have hlen : l.length ≠ 0 := by simpa using h
  show (List.range (batchesCount l.length)).map _ = _
  rw [batchesCount_step l.length hlen, List.range_succ_eq_map]
  simp only [List.map_cons, List.map_map, Function.comp]
  refine List.cons_eq_cons.mpr ⟨?_, ?_⟩
  · simp [jsSlice]
  · show _ = (List.range (batchesCount (l.drop BATCH_SIZE).length)).map _
    rw [List.length_drop]
    apply List.map_congr_left
    intro i hi
    exact jsSlice_shift l i

theorem sendBatches_flatten (l : List α) : (sendBatches l).flatten = l := by
  generalize hn : l.length = n
  induction n using Nat.strong_induction_on generalizing l with
  | _ n ih =>
    match l with
    | [] => simp [sendBatches_nil]
    | a :: rest =>
      have hne : (a :: rest) ≠ ([] : List α) := by simp
      rw [sendBatches_cons _ hne, List.flatten_cons]
      have hlt : ((a :: rest).drop BATCH_SIZE).length < n := by
        rw [List.length_drop]
        subst hn
        simp only [List.length_cons, BATCH_SIZE]
        omega
      rw [ih _ hlt _ rfl]
      exact List.take_append_drop _ _

theorem sendBatches_le (l : List α) : ∀ b ∈ sendBatches l, b.length ≤ BATCH_SIZE := by
  intro b hb
  simp only [sendBatches, List.mem_map, List.mem_range] at hb
  obtain ⟨i, hi, rfl⟩ := hb
  calc (jsSlice l (i * BATCH_SIZE) ((i + 1) * BATCH_SIZE)).length
      ≤ (i + 1) * BATCH_SIZE - i * BATCH_SIZE := List.length_take_le _ _
    _ = BATCH_SIZE := by unfold BATCH_SIZE; omega

theorem attemptGo_numAttempts_le (outcome : Nat → Bool) (gas : Nat) :
    ∀ ctr made sleeps, (attemptGo outcome gas ctr made sleeps).numAttempts ≤ made + gas := by
  induction gas with
  | zero => intro ctr made sleeps; exact Nat.le_refl _
  | succ g ihg =>
      intro ctr made sleeps
      rw [attemptGo]
      by_cases h1 : ctr ≤ MAX_CXN_RETRIES
      · rw [if_pos h1]
        cases h2 : outcome made with
        | true => show made + 1 ≤ made + (g + 1); omega
        | false =>
            simp only [Bool.false_eq_true, if_false]
            exact le_trans (ihg (ctr + 1) (made + 1) _) (by omega)
      · rw [if_neg h1]
        show made ≤ made + (g + 1)
        omega

theorem attemptGo_finalAttempts_ge (outcome : Nat → Bool) (gas : Nat) :
    ∀ ctr made sleeps, ctr ≤ (attemptGo outcome gas ctr made sleeps).finalAttempts := by
  induction gas with
  | zero => intro ctr made sleeps; exact Nat.le_refl _
  | succ g ihg =>
      intro ctr made sleeps
      rw [attemptGo]
      by_cases h1 : ctr ≤ MAX_CXN_RETRIES
      · rw [if_pos h1]
        cases h2 : outcome made with
        | true => exact Nat.le_refl _
        | false =>
            simp only [Bool.false_eq_true, if_false]
            exact le_trans (Nat.le_succ ctr) (ihg (ctr + 1) (made + 1) _)
      · rw [if_neg h1]

theorem foldl_fst_constant (f : List UserData → List String) :
    ∀ (bs : List (List UserData)) (acc : List String) (pend : List (List String)),
      (bs.foldl (fun st batch => (st.1, st.2 ++ [f batch])) (acc, pend)).1 = acc := by
  intro bs
  induction bs with
  | nil => intro acc pend; rfl
  | cons b rest ih => intro acc pend; exact ih acc _

theorem send_returned_nil (provider : List PostmarkMessage → List BatchResponse)
    (mailFrom ghostUrl templateId : Option String)
    (userData : List UserData) (newsletter : NewsletterData) :
    (send provider mailFrom ghostUrl templateId userData newsletter).returned = [] := by
  simp only [send]
  exact foldl_fst_constant _ (sendBatches userData) [] []

/-! ## The claims -/

/-- Claim C1: the claim says send waits for the outcome of every submitted
batch before returning and that the returned list holds exactly the
addresses whose per-recipient result is non-success.  The code disagrees:
send is synchronous and only queues a then-callback per batch, so the
array it returns is empty on every input — even when a recipient fails,
as the concrete run with failingProvider and badUser shows; the failed
address appears only in the deferred pushes that run after send has
already returned. -/
theorem send_returns_before_batch_outcomes :
    (∀ provider mailFrom ghostUrl templateId userData newsletter,
      (send provider mailFrom ghostUrl templateId userData newsletter).returned = []) ∧
    (send failingProvider (some "news@example.com") (some "https://blog.example.com")
        (some "1234") [badUser] sampleNewsletterData).returned = [] ∧
    eventualFailures
        (send failingProvider (some "news@example.com") (some "https://blog.example.com")
          (some "1234") [badUser] sampleNewsletterData) = ["bad@example.com"] := by
  refine ⟨send_returned_nil, by decide, by decide⟩

/-- Claim C2: for every recipient list, send forms exactly
ceil(length / 500) batches, each a contiguous slice of at most 500
recipients, and concatenating the batches in submission order
reconstructs the input list exactly. -/
theorem send_partitions_recipients (recipients : List UserData) :
    (sendBatches recipients).length = batchesCount recipients.length ∧
    (∀ b ∈ sendBatches recipients, b.length ≤ BATCH_SIZE) ∧
    (sendBatches recipients).flatten = recipients := by
  refine ⟨by simp [sendBatches], sendBatches_le recipients, sendBatches_flatten recipients⟩

/-- Claim C3 counterexample: against a database that fails the first three
attempts and accepts the fourth, the delays slept are not 1s, 2s, 4s as
the claim states. -/
theorem retry_delays_are_not_one_two_four :
    (attemptToConnectMySql failFirst3 CONNECTION_ATTEMPTS_init).sleeps ≠
      [1000, 2000, 4000] := by decide

/-- Claim C3 as amended: against that database, connect returns
successfully on the fourth attempt, and the delays slept are 2s, 4s, 8s —
the values of getRetryDelay at counter values 1, 2, 3, each equal to
min(60s, 1s * 2 ^ attempt), because the global attempt counter starts at
1, not 0. -/
theorem retry_succeeds_on_fourth_attempt :
    (attemptToConnectMySql failFirst3 CONNECTION_ATTEMPTS_init).ok = true ∧
    (attemptToConnectMySql failFirst3 CONNECTION_ATTEMPTS_init).numAttempts = 4 ∧
    (attemptToConnectMySql failFirst3 CONNECTION_ATTEMPTS_init).sleeps =
      [2000, 4000, 8000] ∧
    (attemptToConnectMySql failFirst3 CONNECTION_ATTEMPTS_init).sleeps =
      [getRetryDelay 1, getRetryDelay 2, getRetryDelay 3] ∧
    getRetryDelay 1 = min 60000 (1000 * 2 ^ 1) ∧
    getRetryDelay 2 = min 60000 (1000 * 2 ^ 2) ∧
    getRetryDelay 3 = min 60000 (1000 * 2 ^ 3) := by decide

/-- Claim C4 counterexample: against a database that always fails, the
total time slept is not the claimed 63 seconds. -/
theorem retry_total_sleep_is_not_63s :
    (attemptToConnectMySql alwaysFail CONNECTION_ATTEMPTS_init).sleeps.sum ≠ 63000 := by
  decide

/-- Claim C4 as amended: against a database that always fails, connect
makes exactly 6 attempts and then fails; it sleeps after every failed
attempt, the last included, with delays 2, 4, 8, 16, 32, 60 seconds — the
final step clamped at the 60s ceiling since 1s * 2 ^ 6 exceeds it — for a
total sleep of 122 seconds. -/
theorem retry_exhaustion_after_six_attempts :
    (attemptToConnectMySql alwaysFail CONNECTION_ATTEMPTS_init).ok = false ∧
    (attemptToConnectMySql alwaysFail CONNECTION_ATTEMPTS_init).numAttempts = 6 ∧
    (attemptToConnectMySql alwaysFail CONNECTION_ATTEMPTS_init).sleeps =
      [2000, 4000, 8000, 16000, 32000, 60000] ∧
    (attemptToConnectMySql alwaysFail CONNECTION_ATTEMPTS_init).sleeps.sum = 122000 ∧
    getRetryDelay 6 = 60000 ∧ 60000 < 1000 * 2 ^ 6 := by decide

/-- Claim C5: the claim says a publication lookup that returns zero rows
fails with the defined NotFoundError and no dispatch is attempted.  On
zero rows the code instead performs the unguarded access rows[0].name and
throws a TypeError — not the defined NotFoundError; the handler still
catches the throw, responds 500 and attempts no dispatch. -/
theorem publication_lookup_zero_rows_is_unguarded :
    (getNewsletterNameByPostIdRun (Except.ok [])).result =
      Except.error (JsError.typeError "Cannot read properties of undefined") ∧
    (getNewsletterNameByPostIdRun (Except.ok [])).result ≠
      Except.error JsError.notFound ∧
    (∀ users sendFn,
      hooksHandler (Except.ok users) (getNewsletterNameByPostIdRun (Except.ok [])).result
          sendFn = { status := 500, dispatched := false }) := by
  refine ⟨rfl, by simp [getNewsletterNameByPostIdRun], fun users sendFn => rfl⟩

/-- Claim C6: the claim says each resolver invocation closes its
connection on every exit path.  The code disagrees: no run of
getNewsletterNameByPostId ever releases its connection — its success path
included, as the concrete run shows — and getEmailsByPostId skips the
release when its query throws; only the success path of getEmailsByPostId
conforms. -/
theorem resolver_connections_leak :
    (getNewsletterNameByPostIdRun
        (Except.ok [newsletterQueryRow "Weekly" "uuid-1"])).events = [CxnEvent.acquire] ∧
    ¬ closesEveryConnection
        (getNewsletterNameByPostIdRun
          (Except.ok [newsletterQueryRow "Weekly" "uuid-1"])).events ∧
    ¬ closesEveryConnection
        (getEmailsByPostIdRun (Except.error (JsError.queryError "connection lost"))).events ∧
    (∀ rowsOrError,
      ¬ closesEveryConnection (getNewsletterNameByPostIdRun rowsOrError).events) ∧
    (∀ rows, closesEveryConnection (getEmailsByPostIdRun (Except.ok rows)).events) := by
  refine ⟨rfl, by decide, by decide, ?_,
    fun rows => by
      show closesEveryConnection [CxnEvent.acquire, CxnEvent.release]
      decide⟩
  intro rowsOrError
  match rowsOrError with
  | Except.error e => show ¬ closesEveryConnection [CxnEvent.acquire]; decide
  | Except.ok [] => show ¬ closesEveryConnection [CxnEvent.acquire]; decide
  | Except.ok (r :: rest) => show ¬ closesEveryConnection [CxnEvent.acquire]; decide

/-- Claim C7: the claim says every string field substituted into the
per-recipient template model is a string, defaulting to empty rather than
undefined.  Only emailFrom and website_url are defaulted; header_image,
created_at and newsletter_uuid read properties that do not exist on the
assembled newsletterData object and are undefined on every input — in
particular on a fully populated webhook — and newsletterName receives the
whole object the newsletter resolver returned, not a string. -/
theorem template_model_fields_undefined :
    (∀ mailFrom ghostUrl user newsletter,
      (buildTemplateModel mailFrom ghostUrl user newsletter).header_image = none ∧
      (buildTemplateModel mailFrom ghostUrl user newsletter).created_at = none ∧
      (buildTemplateModel mailFrom ghostUrl user newsletter).newsletter_uuid = none ∧
      (buildTemplateModel mailFrom ghostUrl user newsletter).emailFrom.isSome = true ∧
      (buildTemplateModel mailFrom ghostUrl user newsletter).website_url.isSome = true) ∧
    ¬ allTemplateStringsPresent
        (buildTemplateModel (some "news@example.com") (some "https://blog.example.com")
          badUser sampleNewsletterData) ∧
    sampleNewsletterData.name = sampleInfo := by
  refine ⟨fun mailFrom ghostUrl user newsletter => ⟨rfl, rfl, rfl, rfl, rfl⟩, by decide, rfl⟩

/-- Claim C8: the handler responds 200 exactly when both resolvers
succeed and the failure list the dispatcher returned is empty; it
responds 500 when the failure list is non-empty or when either resolver
throws, and in the resolver-error cases no dispatch happens. -/
theorem handler_response_contract (users : List UserData) (info : NewsletterInfo)
    (sendFn : List UserData → List String) (e : JsError)
    (nres : Except JsError NewsletterInfo) (eres : Except JsError (List UserData)) :
    (hooksHandler (Except.ok users) (Except.ok info) sendFn).dispatched = true ∧
    ((hooksHandler (Except.ok users) (Except.ok info) sendFn).status = 200 ↔
      sendFn users = []) ∧
    ((hooksHandler (Except.ok users) (Except.ok info) sendFn).status = 500 ↔
      sendFn users ≠ []) ∧
    hooksHandler (Except.error e) nres sendFn = { status := 500, dispatched := false } ∧
    hooksHandler eres (Except.error e) sendFn = { status := 500, dispatched := false } := by
  refine ⟨?_, ?_, ?_, rfl, ?_⟩
  · by_cases h : sendFn users = [] <;> simp [hooksHandler, h, List.length_pos]
  · by_cases h : sendFn users = [] <;> simp [hooksHandler, h, List.length_pos]
  · by_cases h : sendFn users = [] <;> simp [hooksHandler, h, List.length_pos]
  · cases eres <;> rfl

/-- Claim C9: the connection attempt counter starts at 1 and the retry
budget of MAX_CXN_RETRIES is shared across invocations: the counter never
decreases across a call, a call entered after k earlier failures (counter
1 + k) makes at most 6 - k connection attempts, and a call entered with
the counter beyond MAX_CXN_RETRIES fails at once, making no connection
attempt at all. -/
theorem connection_budget_shared_globally (outcome : Nat → Bool) (k ctr big : Nat)
    (h : MAX_CXN_RETRIES < big) :
    CONNECTION_ATTEMPTS_init = 1 ∧
    ctr ≤ (attemptToConnectMySql outcome ctr).finalAttempts ∧
    (attemptToConnectMySql outcome (1 + k)).numAttempts ≤ MAX_CXN_RETRIES - k ∧
    (attemptToConnectMySql outcome big).ok = false ∧
    (attemptToConnectMySql outcome big).numAttempts = 0 := by
  have hgas : MAX_CXN_RETRIES + 1 - big = 0 := by omega
  refine ⟨rfl, attemptGo_finalAttempts_ge outcome _ ctr 0 [], ?_, ?_, ?_⟩
  · have hle := attemptGo_numAttempts_le outcome (MAX_CXN_RETRIES + 1 - (1 + k)) (1 + k) 0 []
    calc (attemptToConnectMySql outcome (1 + k)).numAttempts
        ≤ 0 + (MAX_CXN_RETRIES + 1 - (1 + k)) := hle
      _ ≤ MAX_CXN_RETRIES - k := by omega
  · rw [attemptToConnectMySql, hgas]; rfl
  · rw [attemptToConnectMySql, hgas]; rfl

/-- Claim C9 witness: the theorem applied with a database that always
fails, two earlier failed attempts, a probe at counter value 3, and a
later call entered at counter value 7. -/
theorem connection_budget_shared_globally_witness :
    MAX_CXN_RETRIES < 7 ∧
    (CONNECTION_ATTEMPTS_init = 1 ∧
     3 ≤ (attemptToConnectMySql alwaysFail 3).finalAttempts ∧
     (attemptToConnectMySql alwaysFail (1 + 2)).numAttempts ≤ MAX_CXN_RETRIES - 2 ∧
     (attemptToConnectMySql alwaysFail 7).ok = false ∧
     (attemptToConnectMySql alwaysFail 7).numAttempts = 0) :=
  ⟨by decide, connection_budget_shared_globally alwaysFail 2 3 7 (by decide)⟩

/-- Claim C10: whenever the publication lookup succeeds, the
newsletter_uuid field of the returned value is undefined: NEWSLETTER_QUERY
aliases the uuid column as newsletter_id, while the code reads the
property newsletter_uuid of the first row, which no row possesses. -/
theorem newsletter_uuid_always_undefined (name uuid : String) (rest : List Row) :
    (getNewsletterNameByPostIdRun
        (Except.ok (newsletterQueryRow name uuid :: rest))).result =
      Except.ok { name := some name, newsletter_uuid := none } := rfl

end GhostWebhooks
